import Mathlib

/-!
Shallow embedding of `src/index.js`, a small Express server that forwards
text, image, document and audio inputs to a remote generative-model
provider (`model.generateContent`) and relays the text response.

Modelling conventions:
* The on-disk upload store (`uploads/`) is an association list from paths
  to file entries (`FS`).  Node's `fs.existsSync`, `fs.readFileSync` and
  `fs.unlinkSync` become `FS.existsSync`, `FS.readFileSync`,
  `FS.unlinkSync`; possible I/O failures of the environment are carried in
  the entry (`readError`, `unlinkError` hold the message of the error the
  call would throw, `none` meaning the call succeeds).
* The remote provider is an arbitrary function `Provider` from the
  submitted content to `Except String String` (`.error msg` models
  `generateContent` throwing an `Error` with `error.message = msg`,
  `.ok t` models a response whose `response.text()` is `t`).
* A handler is a function from the file store, the provider and the
  decoded request to a `HandlerOutput` recording the HTTP response (or an
  uncaught exception, `HandlerResult.fault`), the file store after the
  handler finished, the list of provider invocations, the list of paths
  the handler tried to read, and any error thrown by the cleanup code in
  the `finally` block.
* `Buffer.toString("base64")` is `base64String`, standard RFC 4648 base64
  with padding; bytes are `Nat` reduced mod 256.
* Line 45 of `src/index.js` calls `fileToGenerativePart`, an identifier
  that is defined nowhere in the program (the README notes this); in
  JavaScript evaluating it throws `ReferenceError: fileToGenerativePart
  is not defined` before the `try` block is entered, which the embedding
  records as a `fault` outcome.
-/

namespace GeminiApi

/-- An uploaded file as multer hands it to the handler: `req.file.path`
and `req.file.mimetype` (the only fields `src/index.js` uses). -/
structure UploadedFile where
  path : String
  mimetype : String
deriving DecidableEq

/-- An entry of the modelled upload store: the file bytes plus the
environment's behaviour for reading and unlinking it (`none` = the call
succeeds, `some msg` = the call throws an error whose message is `msg`). -/
structure FSFile where
  bytes : List Nat
  readError : Option String
  unlinkError : Option String
deriving DecidableEq

/-- The temporary upload store: paths mapped to file entries. -/
abbrev FS := List (String × FSFile)

/-- Look a path up in the store. -/
def FS.lookup : FS → String → Option FSFile
  | [], _ => none
  | (q, f) :: rest, p => if q = p then some f else FS.lookup rest p

/-- Model of `fs.existsSync(p)`: the path has an entry in the store. -/
def FS.existsSync (fs : FS) (p : String) : Bool :=
  (FS.lookup fs p).isSome

/-- Remove a path from the store (the effect of a successful unlink). -/
def FS.erase : FS → String → FS
  | [], _ => []
  | (q, f) :: rest, p =>
    if q = p then FS.erase rest p else (q, f) :: FS.erase rest p

/-- Model of `fs.readFileSync(p)`: returns the bytes, or the message of
the error the call throws (`ENOENT` when the file is absent, otherwise
the entry's `readError`). -/
def FS.readFileSync (fs : FS) (p : String) : Except String (List Nat) :=
  match FS.lookup fs p with
  | none => .error ("ENOENT: no such file or directory, open " ++ p)
  | some f =>
    match f.readError with
    | some e => .error e
    | none => .ok f.bytes

/-- Model of `fs.unlinkSync(p)`: deletes the entry, or throws (`ENOENT`
when absent, otherwise the entry's `unlinkError`). -/
def FS.unlinkSync (fs : FS) (p : String) : Except String FS :=
  match FS.lookup fs p with
  | none => .error ("ENOENT: no such file or directory, unlink " ++ p)
  | some f =>
    match f.unlinkError with
    | some e => .error e
    | none => .ok (FS.erase fs p)

/-- Change the unlink behaviour of the entry at `p` without touching its
bytes or read behaviour (used to state that cleanup failures cannot alter
the HTTP response). -/
def FS.setUnlinkError : FS → String → Option String → FS
  | [], _, _ => []
  | (q, f) :: rest, p, e =>
    (q, if q = p then { f with unlinkError := e } else f)
      :: FS.setUnlinkError rest p e

/-- A content part as submitted to `model.generateContent`: a plain
string in the array, or an `inlineData` object with base64 data and a
mime type. -/
inductive ContentPart where
  | text (s : String)
  | inlineMedia (data : String) (mimeType : String)
deriving DecidableEq

/-- One invocation of `model.generateContent`: either with a single bare
argument (the text endpoint, whose `prompt` may be `undefined`, modelled
`none`) or with an array of parts (the multimodal endpoints). -/
inductive ProviderCall where
  | single (prompt : Option String)
  | parts (ps : List ContentPart)
deriving DecidableEq

/-- The remote model: maps an invocation to the text of the response
(`.ok`) or to the message of the thrown error (`.error`). -/
abbrev Provider := ProviderCall → Except String String

/-- An HTTP response body produced by `src/index.js`: `res.send` of plain
text, `res.json({output})`, or `res.json({error})`. -/
inductive ResponseBody where
  | plainText (s : String)
  | jsonOutput (s : String)
  | jsonError (s : String)
deriving DecidableEq

/-- How a handler terminates: with an HTTP status and body, or with an
uncaught exception (the async function rejects, no response is written). -/
inductive HandlerResult where
  | response (status : Nat) (body : ResponseBody)
  | fault (msg : String)
deriving DecidableEq

/-- Everything observable about one run of a file-accepting handler. -/
structure HandlerOutput where
  result : HandlerResult
  fs : FS
  calls : List ProviderCall
  reads : List String
  cleanupFault : Option String
deriving DecidableEq

/-- Everything observable about one run of the text handler (no file
store involved). -/
structure TextHandlerOutput where
  result : HandlerResult
  calls : List ProviderCall
deriving DecidableEq

/-- A decoded multipart request: the optional `prompt` form field and the
optional uploaded file (`req.file`). -/
structure MultipartReq where
  promptField : Option String
  file : Option UploadedFile
deriving DecidableEq

/-- The base64 alphabet character for an index below 64. -/
def base64Char (n : Nat) : Char :=
  "ABCDEFGHIJKLMNOPQRSTUVWXYZabcdefghijklmnopqrstuvwxyz0123456789+/".toList.getD n
    (Char.ofNat 65)

/-- Encode a list of bytes (each below 256) three at a time into base64
characters, padding the final group with `=` as RFC 4648 prescribes. -/
def base64Groups : List Nat → List Char
  | [] => []
  | [b1] =>
    [base64Char (b1 / 4), base64Char (b1 % 4 * 16), Char.ofNat 61, Char.ofNat 61]
  | [b1, b2] =>
    [base64Char (b1 / 4), base64Char (b1 % 4 * 16 + b2 / 16),
     base64Char (b2 % 16 * 4), Char.ofNat 61]
  | b1 :: b2 :: b3 :: rest =>
    base64Char (b1 / 4) :: base64Char (b1 % 4 * 16 + b2 / 16) ::
    base64Char (b2 % 16 * 4 + b3 / 64) :: base64Char (b3 % 64) ::
    base64Groups rest

/-- Model of `buffer.toString("base64")`. -/
def base64String (bs : List Nat) : String :=
  String.mk (base64Groups (bs.map (fun b => b % 256)))

/-- Line 37: `const prompt = req.body.prompt || "Describe the image"`.
A multipart form field is a string when present and `undefined` when
absent; the only falsy values are therefore `undefined` and the empty
string, and `||` replaces both with the default. -/
def imagePrompt (promptField : Option String) : String :=
  match promptField with
  | none => "Describe the image"
  | some s => if s = "" then "Describe the image" else s

/-- Outcome of the cleanup code: the store afterwards, and the message of
the error the `finally` block threw, if any. -/
structure ReleaseOut where
  fs : FS
  fault : Option String
deriving DecidableEq

/-- The `finally` block shared verbatim by the three file-accepting
handlers: `if (req.file && fs.existsSync(path)) fs.unlinkSync(path)`.
The response has already been written when this runs, so a thrown unlink
error is recorded separately and cannot change the response. -/
def release (file : Option UploadedFile) (fs : FS) : ReleaseOut :=
  match file with
  | none => ⟨fs, none⟩
  | some f =>
    if FS.existsSync fs f.path then
      match FS.unlinkSync fs f.path with
      | .ok fs2 => ⟨fs2, none⟩
      | .error e => ⟨fs, some e⟩
    else ⟨fs, none⟩

/-- Lines 21-33, the `/generate-text` handler: destructure `prompt` from
the JSON body without validation, call `model.generateContent(prompt)`,
answer `200 {output}` on success and `500 {error}` on any thrown error. -/
def generateText (provider : Provider) (prompt : Option String) :
    TextHandlerOutput :=
  match provider (.single prompt) with
  | .ok t => ⟨.response 200 (.jsonOutput t), [.single prompt]⟩
  | .error e => ⟨.response 500 (.jsonError e), [.single prompt]⟩

/-- Lines 36-60, the `/generate-from-image` handler: compute the prompt
default, answer `400` plain text when no file is attached; otherwise
line 45 evaluates the undefined identifier `fileToGenerativePart`, which
throws a `ReferenceError` before the `try` block is entered: no provider
call, no response and no `finally` cleanup ever happen on this path. -/
def generateFromImage (fs : FS) (_provider : Provider) (req : MultipartReq) :
    HandlerOutput :=
  let _prompt := imagePrompt req.promptField
  match req.file with
  | none => ⟨.response 400 (.plainText "No image file uploaded."), fs, [], [], none⟩
  | some _ =>
    ⟨.fault "fileToGenerativePart is not defined", fs, [], [], none⟩

/-- Lines 63-100, the `/generate-from-document` handler: `400` plain text
when no file; otherwise read the file, base64-encode it, submit
`["Analyze this document:", {inlineData}]`, answer `200 {output}` on
success and `500 {error}` when the read or the provider call throws, and
run the `finally` cleanup on every path. -/
def generateFromDocument (fs : FS) (provider : Provider) (req : MultipartReq) :
    HandlerOutput :=
  match req.file with
  | none => ⟨.response 400 (.plainText "No document file uploaded."), fs, [], [], none⟩
  | some file =>
    let filePath := file.path
    match FS.readFileSync fs filePath with
    | .error e =>
      let r := release (some file) fs
      ⟨.response 500 (.jsonError e), r.fs, [], [filePath], r.fault⟩
    | .ok buffer =>
      let base64Data := base64String buffer
      let mimeType := file.mimetype
      let documentPart := ContentPart.inlineMedia base64Data mimeType
      let call := ProviderCall.parts [.text "Analyze this document:", documentPart]
      match provider call with
      | .error e =>
        let r := release (some file) fs
        ⟨.response 500 (.jsonError e), r.fs, [call], [filePath], r.fault⟩
      | .ok t =>
        let r := release (some file) fs
        ⟨.response 200 (.jsonOutput t), r.fs, [call], [filePath], r.fault⟩

/-- Lines 103-137, the `/generate-from-audio` handler: identical to the
document handler except for the instruction text and messages. -/
def generateFromAudio (fs : FS) (provider : Provider) (req : MultipartReq) :
    HandlerOutput :=
  match req.file with
  | none => ⟨.response 400 (.plainText "No audio file uploaded."), fs, [], [], none⟩
  | some file =>
    let filePath := file.path
    match FS.readFileSync fs filePath with
    | .error e =>
      let r := release (some file) fs
      ⟨.response 500 (.jsonError e), r.fs, [], [filePath], r.fault⟩
    | .ok buffer =>
      let base64Data := base64String buffer
      let mimeType := file.mimetype
      let audioPart := ContentPart.inlineMedia base64Data mimeType
      let call := ProviderCall.parts
        [.text "Transcribe or analyze the following audio:", audioPart]
      match provider call with
      | .error e =>
        let r := release (some file) fs
        ⟨.response 500 (.jsonError e), r.fs, [call], [filePath], r.fault⟩
      | .ok t =>
        let r := release (some file) fs
        ⟨.response 200 (.jsonOutput t), r.fs, [call], [filePath], r.fault⟩

example : base64String [77, 97, 110] = "TWFu" := by decide

example : base64String [77, 97] = "TWE=" := by decide

example : base64String [77] = "TQ==" := by decide

/-! Helper lemmas about the file-store model. -/

theorem FS.lookup_erase_self (fs : FS) (p : String) :
    FS.lookup (FS.erase fs p) p = none := by
  induction fs with
  | nil => rfl
  | cons kv rest ih =>
    obtain ⟨q, f⟩ := kv
    by_cases h : q = p
    · simpa [FS.erase, h] using ih
    · simp [FS.erase, FS.lookup, h, ih]

theorem FS.existsSync_erase_self (fs : FS) (p : String) :
    FS.existsSync (FS.erase fs p) p = false := by
  simp [FS.existsSync, FS.lookup_erase_self]

theorem FS.lookup_setUnlinkError (fs : FS) (p q : String) (e : Option String) :
    FS.lookup (FS.setUnlinkError fs p e) q =
      Option.map (fun f => if q = p then { f with unlinkError := e } else f)
        (FS.lookup fs q) := by
  induction fs with
  | nil => rfl
  | cons kv rest ih =>
    obtain ⟨a, f⟩ := kv
    by_cases h : a = q
    · subst h
      simp [FS.setUnlinkError, FS.lookup]
    · simp [FS.setUnlinkError, FS.lookup, h, ih]

theorem FS.existsSync_setUnlinkError (fs : FS) (p q : String) (e : Option String) :
    FS.existsSync (FS.setUnlinkError fs p e) q = FS.existsSync fs q := by
  rw [FS.existsSync, FS.existsSync, FS.lookup_setUnlinkError]
  cases FS.lookup fs q <;> simp

theorem FS.readFileSync_setUnlinkError (fs : FS) (p q : String) (e : Option String) :
    FS.readFileSync (FS.setUnlinkError fs p e) q = FS.readFileSync fs q := by
  rw [FS.readFileSync, FS.readFileSync, FS.lookup_setUnlinkError]
  cases FS.lookup fs q with
  | none => rfl
  | some f => by_cases h : q = p <;> simp [h]

theorem release_of_not_exists (f : UploadedFile) (fs : FS)
    (h : FS.existsSync fs f.path = false) : release (some f) fs = ⟨fs, none⟩ := by
  simp [release, h]

theorem release_fs_cases (f : UploadedFile) (fs : FS) :
    (release (some f) fs).fs = fs ∨ (release (some f) fs).fs = FS.erase fs f.path := by
  cases hex : FS.existsSync fs f.path with
  | false => left; simp [release, hex]
  | true =>
    cases hl : FS.lookup fs f.path with
    | none =>
      simp [FS.existsSync, hl] at hex
    | some f2 =>
      cases hue : f2.unlinkError with
      | some e2 => left; simp [release, hex, FS.unlinkSync, hl, hue]
      | none => right; simp [release, hex, FS.unlinkSync, hl, hue]

theorem imageResult_setUnlinkError (fs : FS) (p : String) (e : Option String)
    (provider : Provider) (req : MultipartReq) :
    (generateFromImage (FS.setUnlinkError fs p e) provider req).result
      = (generateFromImage fs provider req).result := by
  cases hf : req.file <;> simp [generateFromImage, hf]

theorem documentResult_setUnlinkError (fs : FS) (p : String) (e : Option String)
    (provider : Provider) (req : MultipartReq) :
    (generateFromDocument (FS.setUnlinkError fs p e) provider req).result
      = (generateFromDocument fs provider req).result := by
  cases hf : req.file with
  | none => simp [generateFromDocument, hf]
  | some file =>
    simp only [generateFromDocument, hf, FS.readFileSync_setUnlinkError]
    cases FS.readFileSync fs file.path with
    | error e2 => rfl
    | ok buffer =>
      dsimp only
      cases provider (.parts [.text "Analyze this document:",
        .inlineMedia (base64String buffer) file.mimetype]) <;> rfl

theorem audioResult_setUnlinkError (fs : FS) (p : String) (e : Option String)
    (provider : Provider) (req : MultipartReq) :
    (generateFromAudio (FS.setUnlinkError fs p e) provider req).result
      = (generateFromAudio fs provider req).result := by
  cases hf : req.file with
  | none => simp [generateFromAudio, hf]
  | some file =>
    simp only [generateFromAudio, hf, FS.readFileSync_setUnlinkError]
    cases FS.readFileSync fs file.path with
    | error e2 => rfl
    | ok buffer =>
      dsimp only
      cases provider (.parts [.text "Transcribe or analyze the following audio:",
        .inlineMedia (base64String buffer) file.mimetype]) <;> rfl

/-! Claim theorems. -/

/-- C2: for every POST /generate-from-image request that includes a file,
the handler invokes `fileToGenerativePart`, which is not defined anywhere
in the program; the invocation faults before the `try` block is entered,
so for such requests the 200 success response, the 500 error response and
the `finally` cleanup are all unreachable: the outcome is the
`ReferenceError` fault, the file store is untouched, no provider call and
no file read happen, and no HTTP response of any status is produced. -/
theorem imageHandlerFaultsOnAnyFile (fs : FS) (provider : Provider)
    (req : MultipartReq) (f : UploadedFile) (hf : req.file = some f) :
    (generateFromImage fs provider req).result
        = .fault "fileToGenerativePart is not defined"
    ∧ (generateFromImage fs provider req).fs = fs
    ∧ (generateFromImage fs provider req).calls = []
    ∧ (generateFromImage fs provider req).reads = []
    ∧ (generateFromImage fs provider req).cleanupFault = none
    ∧ ∀ s b, (generateFromImage fs provider req).result ≠ .response s b := by
  refine ⟨?_, ?_, ?_, ?_, ?_, ?_⟩ <;> simp [generateFromImage, hf]

/-- C2 witness: a concrete image request with a file attached faults. -/
theorem imageHandlerFaultsOnAnyFile_witness :
    (generateFromImage [] (fun _ => Except.ok "x")
        ⟨none, some ⟨"uploads/i1", "image/png"⟩⟩).result
      = .fault "fileToGenerativePart is not defined" :=
  (imageHandlerFaultsOnAnyFile [] (fun _ => Except.ok "x")
    ⟨none, some ⟨"uploads/i1", "image/png"⟩⟩ ⟨"uploads/i1", "image/png"⟩ rfl).1

/-- C3: for every file-accepting endpoint, a request with no file attached
is answered 400 with a plain-text body, the file store is untouched, no
provider call is made, no file read is attempted, and no deletion is
attempted (no cleanup fault either). -/
theorem noFileYields400Untouched (fs : FS) (provider : Provider)
    (req : MultipartReq) (hf : req.file = none) :
    generateFromImage fs provider req
        = ⟨.response 400 (.plainText "No image file uploaded."), fs, [], [], none⟩
    ∧ generateFromDocument fs provider req
        = ⟨.response 400 (.plainText "No document file uploaded."), fs, [], [], none⟩
    ∧ generateFromAudio fs provider req
        = ⟨.response 400 (.plainText "No audio file uploaded."), fs, [], [], none⟩ := by
  refine ⟨?_, ?_, ?_⟩ <;>
    simp [generateFromImage, generateFromDocument, generateFromAudio, hf]

/-- C3 witness: a concrete file-less request to each endpoint. -/
theorem noFileYields400Untouched_witness :
    generateFromImage [("uploads/z", ⟨[1], none, none⟩)] (fun _ => Except.ok "x")
        ⟨none, none⟩
      = ⟨.response 400 (.plainText "No image file uploaded."),
          [("uploads/z", ⟨[1], none, none⟩)], [], [], none⟩ :=
  (noFileYields400Untouched [("uploads/z", ⟨[1], none, none⟩)]
    (fun _ => Except.ok "x") ⟨none, none⟩ rfl).1

/-- C5: for every /generate-text request carrying a prompt, if the
provider call succeeds with text `t`, the response is 200 with
`{output: t}`, `t` being exactly the provider's text, and exactly that
one provider call was made. -/
theorem generateTextSuccess (provider : Provider) (p t : String)
    (hp : provider (.single (some p)) = .ok t) :
    generateText provider (some p)
      = ⟨.response 200 (.jsonOutput t), [.single (some p)]⟩ := by
  simp [generateText, hp]

/-- C5 witness: a concrete prompt with a concrete succeeding provider. -/
theorem generateTextSuccess_witness :
    generateText (fun _ => Except.ok "hello") (some "hi")
      = ⟨.response 200 (.jsonOutput "hello"), [.single (some "hi")]⟩ :=
  generateTextSuccess (fun _ => Except.ok "hello") "hi" "hello" rfl

/-- C9: the text handler performs no local validation: for every body,
including one with the prompt absent, it makes exactly one provider call
passing the (possibly undefined) prompt unchanged, responds 200 `{output}`
on provider success or 500 `{error}` on provider failure, and never
responds 400. -/
theorem textHandlerNoValidation (provider : Provider) (prompt : Option String) :
    (generateText provider prompt).calls = [.single prompt]
    ∧ ((∃ t, provider (.single prompt) = .ok t
          ∧ (generateText provider prompt).result = .response 200 (.jsonOutput t))
        ∨ (∃ e, provider (.single prompt) = .error e
          ∧ (generateText provider prompt).result = .response 500 (.jsonError e)))
    ∧ ∀ b, (generateText provider prompt).result ≠ .response 400 b := by
  refine ⟨?_, ?_, ?_⟩
  · cases hp : provider (.single prompt) <;> simp [generateText, hp]
  · cases hp : provider (.single prompt) with
    | ok t => exact Or.inl ⟨t, rfl, by simp [generateText, hp]⟩
    | error e => exact Or.inr ⟨e, rfl, by simp [generateText, hp]⟩
  · intro b
    cases hp : provider (.single prompt) <;> simp [generateText, hp]

/-- C10: in the image handler, a `prompt` form field that is present but
equal to the empty string is replaced by the default just like an absent
field (both falsy values of `req.body.prompt`), while a non-empty field
passes through unchanged. -/
theorem imagePromptDefaultOnFalsy :
    imagePrompt (some "") = "Describe the image"
    ∧ imagePrompt none = "Describe the image"
    ∧ imagePrompt (some "What colour is the car?") = "What colour is the car?" := by
  refine ⟨rfl, rfl, ?_⟩
  simp [imagePrompt]

/-- C6: for every /generate-from-document request with a file attached
whose bytes are readable, the handler reads exactly that file,
base64-encodes its bytes, submits to the provider exactly the ordered
two-part sequence `[Text("Analyze this document:"), InlineMedia(base64
data, uploaded mime type)]` and nothing else; if the provider returns
text `t` (and the unlink succeeds, the normal case), the response is 200
`{output: t}` and the uploaded file no longer exists in the store. -/
theorem documentPipelineSuccess (fs : FS) (provider : Provider)
    (req : MultipartReq) (file : UploadedFile) (entry : FSFile) (t : String)
    (hf : req.file = some file)
    (hl : FS.lookup fs file.path = some entry)
    (hre : entry.readError = none)
    (hue : entry.unlinkError = none)
    (hp : provider (.parts [.text "Analyze this document:",
        .inlineMedia (base64String entry.bytes) file.mimetype]) = .ok t) :
    (generateFromDocument fs provider req).result = .response 200 (.jsonOutput t)
    ∧ (generateFromDocument fs provider req).calls
        = [.parts [.text "Analyze this document:",
            .inlineMedia (base64String entry.bytes) file.mimetype]]
    ∧ (generateFromDocument fs provider req).reads = [file.path]
    ∧ FS.existsSync (generateFromDocument fs provider req).fs file.path = false
    ∧ (generateFromDocument fs provider req).cleanupFault = none := by
  have hr : FS.readFileSync fs file.path = .ok entry.bytes := by
    simp [FS.readFileSync, hl, hre]
  have hex : FS.existsSync fs file.path = true := by
    simp [FS.existsSync, hl]
  have hrel : release (some file) fs = ⟨FS.erase fs file.path, none⟩ := by
    simp [release, hex, FS.unlinkSync, hl, hue]
  refine ⟨?_, ?_, ?_, ?_, ?_⟩ <;>
    simp [generateFromDocument, hf, hr, hp, hrel, FS.existsSync_erase_self]

/-- C6 witness: a concrete three-byte document, read from a concrete
store, with a provider answering "Summary". -/
theorem documentPipelineSuccess_witness :
    (generateFromDocument [("uploads/d1", ⟨[1, 2, 3], none, none⟩)]
        (fun _ => Except.ok "Summary")
        ⟨none, some ⟨"uploads/d1", "application/pdf"⟩⟩).result
      = .response 200 (.jsonOutput "Summary")
    ∧ FS.existsSync (generateFromDocument [("uploads/d1", ⟨[1, 2, 3], none, none⟩)]
        (fun _ => Except.ok "Summary")
        ⟨none, some ⟨"uploads/d1", "application/pdf"⟩⟩).fs "uploads/d1" = false := by
  have h := documentPipelineSuccess [("uploads/d1", ⟨[1, 2, 3], none, none⟩)]
    (fun _ => Except.ok "Summary") ⟨none, some ⟨"uploads/d1", "application/pdf"⟩⟩
    ⟨"uploads/d1", "application/pdf"⟩ ⟨[1, 2, 3], none, none⟩ "Summary"
    rfl (by decide) rfl rfl rfl
  exact ⟨h.1, h.2.2.2.1⟩

/-- C8: the temp-file release operation (the `finally` block of the
file-accepting handlers) is idempotent and non-masking: it is a no-op
that raises nothing when the file is already absent from the store,
deletes the file when it is present and the unlink succeeds, running it
twice leaves the same store as running it once, and an injected unlink
error at any path never changes the HTTP response of any of the three
file-accepting handlers. -/
theorem tempFileReleaseContract (f : UploadedFile) (fs : FS) (p : String)
    (e : Option String) (provider : Provider) (req : MultipartReq) :
    (FS.existsSync fs f.path = false → release (some f) fs = ⟨fs, none⟩)
    ∧ (release (some f) (release (some f) fs).fs).fs = (release (some f) fs).fs
    ∧ (∀ entry, FS.lookup fs f.path = some entry → entry.unlinkError = none →
        release (some f) fs = ⟨FS.erase fs f.path, none⟩)
    ∧ (generateFromImage (FS.setUnlinkError fs p e) provider req).result
        = (generateFromImage fs provider req).result
    ∧ (generateFromDocument (FS.setUnlinkError fs p e) provider req).result
        = (generateFromDocument fs provider req).result
    ∧ (generateFromAudio (FS.setUnlinkError fs p e) provider req).result
        = (generateFromAudio fs provider req).result := by
  refine ⟨release_of_not_exists f fs, ?_,  ?_,
    imageResult_setUnlinkError fs p e provider req,
    documentResult_setUnlinkError fs p e provider req,
    audioResult_setUnlinkError fs p e provider req⟩
  · rcases release_fs_cases f fs with h | h
    · rw [h]; exact h
    · rw [h]
      have hx : FS.existsSync (FS.erase fs f.path) f.path = false :=
        FS.existsSync_erase_self fs f.path
      rw [release_of_not_exists f (FS.erase fs f.path) hx]
  · intro entry hl hue
    have hex : FS.existsSync fs f.path = true := by
      simp [FS.existsSync, hl]
    simp [release, hex, FS.unlinkSync, hl, hue]

/-- C8 witness: release on an empty store is a silent no-op; release on a
store holding the file deletes it without fault. -/
theorem tempFileReleaseContract_witness :
    release (some ⟨"uploads/w1", "image/png"⟩) ([] : FS) = ⟨[], none⟩
    ∧ release (some ⟨"uploads/w1", "image/png"⟩) [("uploads/w1", ⟨[5], none, none⟩)]
        = ⟨FS.erase [("uploads/w1", ⟨[5], none, none⟩)] "uploads/w1", none⟩ := by
  have h1 := tempFileReleaseContract ⟨"uploads/w1", "image/png"⟩ [] "uploads/w1"
    none (fun _ => Except.ok "x") ⟨none, none⟩
  have h2 := tempFileReleaseContract ⟨"uploads/w1", "image/png"⟩
    [("uploads/w1", ⟨[5], none, none⟩)] "uploads/w1"
    none (fun _ => Except.ok "x") ⟨none, none⟩
  exact ⟨h1.1 (by decide), h2.2.2.1 ⟨[5], none, none⟩ (by decide) rfl⟩

/-- C1 (bug exhibit): at the concrete failing input — an image request
with an uploaded file and a provider that throws — the image handler
faults on the undefined `fileToGenerativePart` with the temp file left in
the store and no 500 response, while the document and audio handlers on
the same kind of input do answer 500 with the provider's non-empty
message and do delete the file. -/
theorem imageProviderErrorContractBug :
    (generateFromImage [("uploads/i2", ⟨[7, 7], none, none⟩)]
        (fun _ => Except.error "provider boom")
        ⟨none, some ⟨"uploads/i2", "image/png"⟩⟩).result
      = .fault "fileToGenerativePart is not defined"
    ∧ FS.existsSync (generateFromImage [("uploads/i2", ⟨[7, 7], none, none⟩)]
        (fun _ => Except.error "provider boom")
        ⟨none, some ⟨"uploads/i2", "image/png"⟩⟩).fs "uploads/i2" = true
    ∧ (generateFromDocument [("uploads/d2", ⟨[7, 7], none, none⟩)]
        (fun _ => Except.error "provider boom")
        ⟨none, some ⟨"uploads/d2", "application/pdf"⟩⟩).result
      = .response 500 (.jsonError "provider boom")
    ∧ FS.existsSync (generateFromDocument [("uploads/d2", ⟨[7, 7], none, none⟩)]
        (fun _ => Except.error "provider boom")
        ⟨none, some ⟨"uploads/d2", "application/pdf"⟩⟩).fs "uploads/d2" = false
    ∧ (generateFromAudio [("uploads/a2", ⟨[7, 7], none, none⟩)]
        (fun _ => Except.error "provider boom")
        ⟨none, some ⟨"uploads/a2", "audio/mpeg"⟩⟩).result
      = .response 500 (.jsonError "provider boom")
    ∧ FS.existsSync (generateFromAudio [("uploads/a2", ⟨[7, 7], none, none⟩)]
        (fun _ => Except.error "provider boom")
        ⟨none, some ⟨"uploads/a2", "audio/mpeg"⟩⟩).fs "uploads/a2" = false := by
  decide

/-- C4 (bug exhibit): with the uploaded file unreadable, the document and
audio handlers answer 500 `{error}` with the read error's message, but
the image handler faults on the undefined `fileToGenerativePart` before
any read is attempted, producing no 500 response. -/
theorem imageEncodingErrorContractBug :
    (generateFromDocument [("uploads/d3", ⟨[1], some "EACCES: permission denied", none⟩)]
        (fun _ => Except.ok "unused")
        ⟨none, some ⟨"uploads/d3", "application/pdf"⟩⟩).result
      = .response 500 (.jsonError "EACCES: permission denied")
    ∧ (generateFromAudio [("uploads/a3", ⟨[1], some "EACCES: permission denied", none⟩)]
        (fun _ => Except.ok "unused")
        ⟨none, some ⟨"uploads/a3", "audio/mpeg"⟩⟩).result
      = .response 500 (.jsonError "EACCES: permission denied")
    ∧ (generateFromImage [("uploads/i3", ⟨[1], some "EACCES: permission denied", none⟩)]
        (fun _ => Except.ok "unused")
        ⟨none, some ⟨"uploads/i3", "image/png"⟩⟩).result
      = .fault "fileToGenerativePart is not defined"
    ∧ (generateFromImage [("uploads/i3", ⟨[1], some "EACCES: permission denied", none⟩)]
        (fun _ => Except.ok "unused")
        ⟨none, some ⟨"uploads/i3", "image/png"⟩⟩).reads = [] := by
  decide

/-- C7 (bug exhibit): line 37 does compute the default instruction
"Describe the image" when the `prompt` form field is omitted, but on the
concrete failing input — an image request with a file and no prompt
field — the handler faults before the provider is invoked, so no
instruction text part is ever passed to the provider (zero calls). -/
theorem imageDefaultPromptNeverReachesProvider :
    imagePrompt none = "Describe the image"
    ∧ (generateFromImage [("uploads/i4", ⟨[9], none, none⟩)]
        (fun _ => Except.ok "a cat")
        ⟨none, some ⟨"uploads/i4", "image/png"⟩⟩).calls = []
    ∧ (generateFromImage [("uploads/i4", ⟨[9], none, none⟩)]
        (fun _ => Except.ok "a cat")
        ⟨none, some ⟨"uploads/i4", "image/png"⟩⟩).result
      = .fault "fileToGenerativePart is not defined" := by
  decide

end GeminiApi
